import Mathlib

/-!
Shallow embedding of the persistent-state, configuration-reconciliation and
escalating-failure-sleep core of the arduino4iot firmware library
(files iot.cpp / iot_config.cpp / iot_util.cpp and their headers).

Machine integers of the source are modelled as `Int`; the quantities involved
(durations in seconds, millivolt readings, HTTP status codes) stay far below
the 32-bit overflow boundary in every statement proved here, and no statement
relies on wrap-around behaviour.  Fallible operations return their success
flag exactly as the C++ functions return `bool`.  External collaborators
(the HTTP transport, the JSON parser, the ADC, the vendor NVRAM driver) enter
as explicit inputs: an HTTP status code, an optional parsed document, a header
list, a measured voltage.
-/

namespace Arduino4Iot

/-! ## Escalating sleep panic policy (Iot::escalatingSleepPanicHandler) -/

/-- Configuration values read by the panic policy:
`panic_sleep_init_s` (default 60), `panic_sleep_factor` (default 2) and
`panic_sleep_max_s` (default 24*60*60), all `IotConfigValue<int>` members of
class `Iot`. -/
structure PanicConfig where
  initDuration : Int
  factor : Int
  maxDuration : Int
deriving Repr, DecidableEq

/-- Hardware exit action invoked at the end of a lifecycle call.  Each
constructor records the `panic` flag passed to the corresponding `Iot`
member function; `deepSleep` also records the sleep duration argument. -/
inductive ExitAction where
  | deepSleep (duration_s : Int) (panic : Bool)
  | restart (panic : Bool)
  | shutdown (panic : Bool)
deriving Repr, DecidableEq

/-- Embedding of `Iot::escalatingSleepPanicHandler` (iot.cpp).  The argument
is the persisted `_panicSleepDuration_s` before the call; the result is the
persisted duration after the call together with the exit action the handler
invokes.  The source reads:
if the duration is `<= 0`, set it to `_panicSleepDurationInit_s` and call
`restart(true)`; otherwise multiply it by `_panicSleepDurationFactor`,
clamp at `_panicSleepDurationMax_s`, and call `deepSleep(duration, true)`. -/
def escalatingSleepPanicHandler (cfg : PanicConfig) (panicSleepDuration_s : Int) :
    Int × ExitAction :=
  if panicSleepDuration_s ≤ 0 then
    (cfg.initDuration, ExitAction.restart true)
  else
    let d0 := panicSleepDuration_s * cfg.factor
    let d1 := if d0 > cfg.maxDuration then cfg.maxDuration else d0
    (d1, ExitAction.deepSleep d1 true)

/-- Effect of `Iot::deepSleep(int, bool)` on the persisted
`_panicSleepDuration_s`: a non-panic sleep resets it to -1, a panic sleep
leaves it unchanged. -/
def deepSleepPanicDuration (panic : Bool) (d : Int) : Int :=
  if !panic then -1 else d

/-- Effect of `Iot::restart(bool)` on the persisted `_panicSleepDuration_s`:
a non-panic restart resets it to -1, a panic restart leaves it unchanged. -/
def restartPanicDuration (panic : Bool) (d : Int) : Int :=
  if !panic then -1 else d

/-- Effect of `Iot::shutdown(bool)` on the persisted `_panicSleepDuration_s`:
a non-panic shutdown resets it to -1, a panic shutdown leaves it unchanged. -/
def shutdownPanicDuration (panic : Bool) (d : Int) : Int :=
  if !panic then -1 else d

/-- Persisted panic duration after a full `onFailure` cycle: the handler first
stores the new duration, then invokes its exit action, whose own effect on the
duration is applied on top. -/
def onFailureDuration (cfg : PanicConfig) (d : Int) : Int :=
  match escalatingSleepPanicHandler cfg d with
  | (d1, ExitAction.deepSleep _ p) => deepSleepPanicDuration p d1
  | (d1, ExitAction.restart p) => restartPanicDuration p d1
  | (d1, ExitAction.shutdown p) => shutdownPanicDuration p d1

/-- Default panic parameters of the C2 scenario: initial 60 s, factor 2,
maximum 500 s. -/
def panicConfig60 : PanicConfig := ⟨60, 2, 500⟩

/-! ## Boot lifecycle: Iot::begin and the battery gate (iot.cpp) -/

/-- Observable collaborator calls made by `Iot::begin`, in program order.
`shutdownCall` records the `panic` flag passed to `Iot::shutdown`;
`apiSetDeviceName` and `apiBegin` are the calls into the network-backed API
component. -/
inductive BeginEvent where
  | configBegin
  | loggerBegin
  | shutdownCall (panic : Bool)
  | apiSetDeviceName
  | apiBegin
deriving Repr, DecidableEq

/-- Inputs of `Iot::begin` that the battery gate reads: the configured
measurement pin `_batteryPin`, the configured threshold `_batteryMin_mV`, and
the voltage `getBatteryVoltage_mV()` would measure. -/
structure BeginEnv where
  batteryPin : Int
  batteryMin_mV : Int
  measuredBattery_mV : Int
deriving Repr, DecidableEq

/-- Embedding of the collaborator-call sequence of `Iot::begin` (iot.cpp).
After `config.begin()` and `logger.begin()`, the battery gate runs when
`_batteryPin >= 0 && _batteryMin_mV > 0`; a measured voltage below the
threshold calls `shutdown(true)`, which never returns
(`esp_deep_sleep_start`), so the sequence ends there.  Otherwise begin
continues with `api.setDeviceName(...)` and `api.begin()`. -/
def beginEvents (env : BeginEnv) : List BeginEvent :=
  [BeginEvent.configBegin, BeginEvent.loggerBegin] ++
    (if env.batteryPin ≥ 0 ∧ env.batteryMin_mV > 0 then
      (if env.measuredBattery_mV < env.batteryMin_mV then
        [BeginEvent.shutdownCall true]
      else
        [BeginEvent.apiSetDeviceName, BeginEvent.apiBegin])
    else
      [BeginEvent.apiSetDeviceName, BeginEvent.apiBegin])

/-! ## IotPersistentValue (iot_util.cpp) -/

/-- Storage tiers of `IotPersistentValue` (enum `StorageType` in iot_util.h). -/
inductive StorageType where
  | none
  | rtc
  | nvramImplicit
  | nvramExplicit
deriving Repr, DecidableEq

/-- In-memory state of an `IotPersistentValue<T>`: its resolved storage tier
and its cached `_value`. -/
structure PersistentValue (α : Type) where
  storageType : StorageType
  value : α
deriving Repr, DecidableEq

/-- Storage-tier selection of the `IotPersistentValue` constructor
(iot_util.cpp): an RTC pointer wins; otherwise both section and key give
implicit NVRAM; a key without a section gives explicit NVRAM; anything else
degrades to no storage. -/
def selectStorageType (hasRtcPtr hasSection hasKey : Bool) : StorageType :=
  if hasRtcPtr then StorageType.rtc
  else if hasSection && hasKey then StorageType.nvramImplicit
  else if !hasSection && hasKey then StorageType.nvramExplicit
  else StorageType.none

/-- Embedding of `IotPersistentValue<T>::get`. -/
def PersistentValue.get {α : Type} (c : PersistentValue α) : α := c.value

/-- Embedding of `IotPersistentValue<T>::set` (iot_util.cpp).  Returns the
new cell state and the number of underlying storage writes performed (a write
to the RTC memory cell or an NVRAM put; tiers none and explicit NVRAM write
nothing).  A value equal to the cached one returns immediately. -/
def PersistentValue.set {α : Type} [DecidableEq α] (c : PersistentValue α)
    (v : α) : PersistentValue α × Nat :=
  if v = c.value then (c, 0)
  else
    let c2 : PersistentValue α := ⟨c.storageType, v⟩
    match c.storageType with
    | StorageType.rtc => (c2, 1)
    | StorageType.nvramImplicit => (c2, 1)
    | _ => (c2, 0)

/-! ## Device identity (Iot::getDeviceId, iot.cpp) -/

/-- Lower-case hexadecimal digit of a value below 16, as produced by the
printf conversion used in `Iot::getDeviceId`. -/
def hexDigit (n : Nat) : Char :=
  if n < 10 then Char.ofNat (48 + n) else Char.ofNat (87 + n)

/-- Two-digit lower-case hexadecimal rendering of a byte (printf `%02x`). -/
def byteToHex (b : Nat) : String :=
  String.mk [hexDigit (b / 16 % 16), hexDigit (b % 16)]

/-- Device identifier derived from the six MAC bytes, as formatted by
`snprintf(id_buf, 17, "e32-%02x...", mac[0], ..., mac[5])`. -/
def macToDeviceId (mac : List Nat) : String :=
  String.join (List.cons "e32-" (mac.map byteToHex))

/-- State read and written by `Iot::getDeviceId`: the WiFi connection status,
the MAC address the WiFi driver would report, and the cached `_deviceId`. -/
structure DeviceIdState where
  wifiConnected : Bool
  mac : List Nat
  deviceId : String
deriving Repr, DecidableEq

/-- Value the `Iot` constructor assigns to `_deviceId`. -/
def iotConstructorDeviceId : String := ""

/-- Embedding of `Iot::getDeviceId` (iot.cpp).  When WiFi is not connected
the function only logs an error; otherwise it derives the identifier from the
MAC address and stores it in `_deviceId`.  Either way it returns the current
`_deviceId`.  Returns the result together with the state after the call. -/
def getDeviceId (st : DeviceIdState) : String × DeviceIdState :=
  if st.wifiConnected then
    let idStr := macToDeviceId st.mac
    (idStr, { st with deviceId := idStr })
  else
    (st.deviceId, st)

/-! ## IotConfig and IotConfigValue (iot_config.cpp, unnamed part_004) -/

/-- Values handled by the configuration machinery: the closed type set of
`IotConfigValue` instantiations (int32, bool, String) doubles as the wire
values the ArduinoJson type probes distinguish. -/
inductive JVal where
  | jInt (i : Int)
  | jBool (b : Bool)
  | jStr (s : String)
deriving Repr, DecidableEq

/-- Contents of one NVRAM preferences namespace, newest entry first; lookup
takes the first match, so prepending models `Preferences::putX`
overwriting the entry. -/
abbrev Prefs := List (String × JVal)

/-- Embedding of `Preferences::isKey`. -/
def prefsIsKey (p : Prefs) (k : String) : Bool := (p.lookup k).isSome

/-- Embedding of the `Preferences::putInt/putBool/putString` family: the new
entry shadows any previous one. -/
def prefsPut (p : Prefs) (k : String) (v : JVal) : Prefs := (k, v) :: p

/-- Embedding of `Preferences::getInt`: the stored value when the key holds
an integer, the supplied default otherwise. -/
def prefsGetInt (p : Prefs) (k : String) (d : Int) : Int :=
  match p.lookup k with
  | some (JVal.jInt i) => i
  | _ => d

/-- Embedding of `Preferences::getBool`. -/
def prefsGetBool (p : Prefs) (k : String) (d : Bool) : Bool :=
  match p.lookup k with
  | some (JVal.jBool b) => b
  | _ => d

/-- Embedding of `Preferences::getString`. -/
def prefsGetStr (p : Prefs) (k : String) (d : String) : String :=
  match p.lookup k with
  | some (JVal.jStr s) => s
  | _ => d

/-- Declared type of a registered `IotConfigValue`, probed in the source via
the virtual `isInt32`/`isBool`/`isString` methods. -/
inductive CType where
  | tInt32
  | tBool
  | tString
deriving Repr, DecidableEq

/-- Registered configuration cell: its persistence key `_nvram_key`, its
declared type, and its in-memory `_value`.  The constructors of
`IotConfigValue<T>` only ever produce values whose tag agrees with the
declared type. -/
structure ConfigCell where
  nvramKey : String
  ctype : CType
  value : JVal
deriving Repr, DecidableEq

/-- Wire value matches the declared cell type: the conjunction
`kv.value().is<X>() && configValuePtr->isX()` of the source. -/
def typeMatches : JVal → CType → Bool
  | JVal.jInt _, CType.tInt32 => true
  | JVal.jBool _, CType.tBool => true
  | JVal.jStr _, CType.tString => true
  | _, _ => false

/-- Embedding of `IotConfigValue<T>::readFromNvram`: replace the in-memory
value by the typed preferences entry, defaulting to the current value. -/
def cellReadFromNvram (p : Prefs) (c : ConfigCell) : ConfigCell :=
  match c.ctype with
  | CType.tInt32 =>
      let d := match c.value with | JVal.jInt i => i | _ => 0
      { c with value := JVal.jInt (prefsGetInt p c.nvramKey d) }
  | CType.tBool =>
      let d := match c.value with | JVal.jBool b => b | _ => false
      { c with value := JVal.jBool (prefsGetBool p c.nvramKey d) }
  | CType.tString =>
      let d := match c.value with | JVal.jStr s => s | _ => ""
      { c with value := JVal.jStr (prefsGetStr p c.nvramKey d) }

/-- One `Preferences::putX` call, recorded in program order. -/
structure WriteEvent where
  key : String
  val : JVal
deriving Repr, DecidableEq

/-- Embedding of one iteration of the field loop of `IotConfig::updateConfig`
(iot_config.cpp).  The accumulator carries the preferences namespace and the
write log.  An unknown key is logged and skipped; a type-matching field is
written only when the key is absent or the stored value differs (the
`!preferences.isKey(nvramKey) || value != preferences.getX(nvramKey)`
check); any type mismatch falls through to the final log-and-skip branch. -/
def processField (cfgMap : List (String × ConfigCell))
    (acc : Prefs × List WriteEvent) (kv : String × JVal) :
    Prefs × List WriteEvent :=
  match cfgMap.lookup kv.1 with
  | none => acc
  | some cell =>
    match kv.2, cell.ctype with
    | JVal.jInt i, CType.tInt32 =>
        if ¬ prefsIsKey acc.1 cell.nvramKey ∨ i ≠ prefsGetInt acc.1 cell.nvramKey 0 then
          (prefsPut acc.1 cell.nvramKey (JVal.jInt i),
            acc.2 ++ [⟨cell.nvramKey, JVal.jInt i⟩])
        else acc
    | JVal.jBool b, CType.tBool =>
        if ¬ prefsIsKey acc.1 cell.nvramKey ∨ b ≠ prefsGetBool acc.1 cell.nvramKey false then
          (prefsPut acc.1 cell.nvramKey (JVal.jBool b),
            acc.2 ++ [⟨cell.nvramKey, JVal.jBool b⟩])
        else acc
    | JVal.jStr s, CType.tString =>
        if ¬ prefsIsKey acc.1 cell.nvramKey ∨ s ≠ prefsGetStr acc.1 cell.nvramKey "" then
          (prefsPut acc.1 cell.nvramKey (JVal.jStr s),
            acc.2 ++ [⟨cell.nvramKey, JVal.jStr s⟩])
        else acc
    | _, _ => acc

/-- Field loop of `IotConfig::updateConfig` over the whole parsed document,
starting from the given preferences contents with an empty write log. -/
def processDoc (cfgMap : List (String × ConfigCell)) (start : Prefs)
    (doc : List (String × JVal)) : Prefs × List WriteEvent :=
  doc.foldl (processField cfgMap) (start, [])

/-- Embedding of `String::equalsIgnoreCase` for ASCII header names. -/
def eqIgnoreCase (a b : String) : Bool := a.toLower == b.toLower

/-- Embedding of one iteration of the response-header loop of
`IotConfig::updateConfig`: a header named `etag` (case-insensitive) is
persisted under the etag key, `last-modified` under the date key, anything
else is ignored. -/
def processHeaderField (etagKey dateKey : String)
    (acc : Prefs × List WriteEvent) (kv : String × String) :
    Prefs × List WriteEvent :=
  if eqIgnoreCase kv.1 "etag" then
    (prefsPut acc.1 etagKey (JVal.jStr kv.2), acc.2 ++ [⟨etagKey, JVal.jStr kv.2⟩])
  else if eqIgnoreCase kv.1 "last-modified" then
    (prefsPut acc.1 dateKey (JVal.jStr kv.2), acc.2 ++ [⟨dateKey, JVal.jStr kv.2⟩])
  else acc

/-- Header loop of `IotConfig::updateConfig` over all collected response
headers, starting with an empty write log. -/
def processHeaders (etagKey dateKey : String) (start : Prefs)
    (headers : List (String × String)) : Prefs × List WriteEvent :=
  headers.foldl (processHeaderField etagKey dateKey) (start, [])

/-- State of one `IotConfig` instance: the registration map `_configMap`
(keyed by the server-facing config key) and the contents of its NVRAM
namespace. -/
structure ConfigState where
  cfgMap : List (String × ConfigCell)
  prefs : Prefs
deriving Repr, DecidableEq

/-- Result of `IotConfig::updateConfig`: the returned bool, the state after
the call, and the preference writes performed, in program order. -/
structure UpdateResult where
  ok : Bool
  state : ConfigState
  writes : List WriteEvent
deriving Repr, DecidableEq

/-- Embedding of `IotConfig::updateConfig` (iot_config.cpp).  External
collaborators appear as inputs: `initialized` stands for the four
`begin()`-supplied pointers being non-null, `status` is the HTTP status code
returned by `api.apiRequest`, `parsed` is the deserialized JSON document
(`none` on a `DeserializationError`), and `headers` are the collected
response headers.  On the three failure paths the function returns false
without writing; on success it runs the field loop, then the header loop,
then reloads every registered cell from the final preferences. -/
def updateConfig (st : ConfigState) (etagKey dateKey : String)
    (initialized : Bool) (status : Int)
    (parsed : Option (List (String × JVal)))
    (headers : List (String × String)) : UpdateResult :=
  if ¬ initialized then ⟨false, st, []⟩
  else if status < 200 ∨ status ≥ 300 then ⟨false, st, []⟩
  else
    match parsed with
    | none => ⟨false, st, []⟩
    | some doc =>
      let pw1 := processDoc st.cfgMap st.prefs doc
      let pw2 := processHeaders etagKey dateKey pw1.1 headers
      ⟨true,
        ⟨st.cfgMap.map (fun kc => (kc.1, cellReadFromNvram pw2.1 kc.2)), pw2.1⟩,
        pw1.2 ++ pw2.2⟩

/-- Int32 cell of the C6 spec scenario, registered under config key a. -/
def demoCellA : ConfigCell := ⟨"a", CType.tInt32, JVal.jInt 0⟩

/-- String cell of the C6 spec scenario, registered under config key b. -/
def demoCellB : ConfigCell := ⟨"b", CType.tString, JVal.jStr ""⟩

/-- Registration map of the C6 spec scenario. -/
def demoMap : List (String × ConfigCell) := [("a", demoCellA), ("b", demoCellB)]

end Arduino4Iot

namespace Arduino4Iot

/-! ## Theorems for claims C1, C2, C3 -/

/-- Claim C1, counterexample.  The claim states that a call from the
Panicking state (persisted duration ≥ 0) sets the duration to
min(duration * factor, max).  At persisted duration 0 with initial=60,
factor=2, max=500 the code takes the first-panic branch and stores 60,
whereas the claim demands min(0*2, 500) = 0. -/
theorem escalating_handler_at_zero_counterexample :
    (escalatingSleepPanicHandler panicConfig60 0).1 = 60 ∧
    (escalatingSleepPanicHandler panicConfig60 0).1 ≠ min ((0 : Int) * 2) 500 := by
  constructor
  · rfl
  · decide

/-- Claim C1 (amended): for every persisted duration d and parameters, a call
to the handler from d ≤ 0 (the code treats 0 as part of the Normal branch)
sets the persisted duration to `initial`, and a call from d > 0 sets it to
min(d * factor, max). -/
theorem escalating_handler_duration (cfg : PanicConfig) (d : Int) :
    (escalatingSleepPanicHandler cfg d).1 =
      if d ≤ 0 then cfg.initDuration else min (d * cfg.factor) cfg.maxDuration := by
  unfold escalatingSleepPanicHandler
  by_cases h : d ≤ 0
  · simp [h]
  · simp only [h, if_false]
    rcases le_or_lt (d * cfg.factor) cfg.maxDuration with hle | hlt
    · simp [min_eq_left hle, not_lt.mpr hle]
    · simp [min_eq_right hlt.le, hlt]

/-- Claim C2: with initial=60, factor=2, max=500 and starting persisted
duration -1 (Normal), three successive onFailure cycles persist durations
60, 120 and 240; a fourth persists min(240*2,500)=480; and a deepSleep,
restart or shutdown not flagged as panic resets the persisted duration to -1
from any state. -/
theorem escalation_sequence_60_120_240_480 :
    onFailureDuration panicConfig60 (-1) = 60 ∧
    onFailureDuration panicConfig60 60 = 120 ∧
    onFailureDuration panicConfig60 120 = 240 ∧
    onFailureDuration panicConfig60 240 = 480 ∧
    (∀ d : Int, deepSleepPanicDuration false d = -1 ∧
      restartPanicDuration false d = -1 ∧ shutdownPanicDuration false d = -1) := by
  refine ⟨by decide, by decide, by decide, by decide, ?_⟩
  intro d
  exact ⟨rfl, rfl, rfl⟩

/-- Claim C3, counterexample.  The claim states that every onFailure call,
from every prior state, is followed by entering sleep for the computed
duration with the panic flag set.  From the Normal state (persisted duration
-1) the code instead calls restart(true): no sleep is entered. -/
theorem first_panic_restarts_counterexample :
    (escalatingSleepPanicHandler panicConfig60 (-1)).2 = ExitAction.restart true ∧
    ∀ s : Int, (escalatingSleepPanicHandler panicConfig60 (-1)).2 ≠
      ExitAction.deepSleep s true := by
  constructor
  · rfl
  · intro s
    simp [escalatingSleepPanicHandler]

/-- Claim C3 (amended): an onFailure call from persisted duration d ≤ 0 is
followed by a restart with the panic flag set, and a call from d > 0 is
followed by entering deep sleep for the computed duration with the panic flag
set. -/
theorem escalating_handler_exit_action (cfg : PanicConfig) (d : Int) :
    (escalatingSleepPanicHandler cfg d).2 =
      if d ≤ 0 then ExitAction.restart true
      else ExitAction.deepSleep (escalatingSleepPanicHandler cfg d).1 true := by
  unfold escalatingSleepPanicHandler
  by_cases h : d ≤ 0
  · simp [h]
  · simp [h]

/-- Claim C4, counterexample.  The claim states that the low-battery shutdown
is flagged as non-panic.  With pin 34, threshold 3300 mV and a measured
3100 mV, `Iot::begin` calls `shutdown(true)`: the panic-flagged shutdown
occurs and no non-panic shutdown does. -/
theorem battery_gate_panic_flag_counterexample :
    BeginEvent.shutdownCall true ∈ beginEvents ⟨34, 3300, 3100⟩ ∧
    BeginEvent.shutdownCall false ∉ beginEvents ⟨34, 3300, 3100⟩ := by
  decide

/-- Claim C4 (amended): if a battery measurement pin ≥ 0 and a threshold > 0
are configured and the measured voltage is below the threshold, `begin()`
triggers a shutdown flagged as panic, and the API component is never
invoked: the whole collaborator sequence is config.begin, logger.begin,
shutdown(true). -/
theorem battery_gate_shuts_down_before_api (env : BeginEnv)
    (hpin : env.batteryPin ≥ 0) (hmin : env.batteryMin_mV > 0)
    (hlow : env.measuredBattery_mV < env.batteryMin_mV) :
    beginEvents env =
      [BeginEvent.configBegin, BeginEvent.loggerBegin,
        BeginEvent.shutdownCall true] ∧
    BeginEvent.apiSetDeviceName ∉ beginEvents env ∧
    BeginEvent.apiBegin ∉ beginEvents env := by
  have h1 : env.batteryPin ≥ 0 ∧ env.batteryMin_mV > 0 := ⟨hpin, hmin⟩
  refine ⟨?_, ?_, ?_⟩ <;> simp [beginEvents, h1, hlow]

/-- Witness for the amended claim C4 at the spec scenario: threshold 3300 mV,
measured 3100 mV. -/
theorem battery_gate_shuts_down_before_api_witness :
    beginEvents ⟨34, 3300, 3100⟩ =
      [BeginEvent.configBegin, BeginEvent.loggerBegin,
        BeginEvent.shutdownCall true] ∧
    BeginEvent.apiSetDeviceName ∉ beginEvents ⟨34, 3300, 3100⟩ ∧
    BeginEvent.apiBegin ∉ beginEvents ⟨34, 3300, 3100⟩ :=
  battery_gate_shuts_down_before_api ⟨34, 3300, 3100⟩
    (by decide) (by decide) (by decide)

/-- Claim C8, counterexample.  The claim states that for every storage tier,
two successive set(v) calls with the same v produce exactly one underlying
storage write.  On the implicit-NVRAM tier with v equal to the already cached
value, both calls return early: zero writes, not one. -/
theorem set_twice_zero_writes_counterexample :
    ((PersistentValue.mk StorageType.nvramImplicit (0 : Int)).set 0).2 +
      ((((PersistentValue.mk StorageType.nvramImplicit (0 : Int)).set 0).1).set
        0).2 = 0 := by
  decide

/-- Claim C8 (amended): on every tier, set(v) with v equal to the cached
value performs no underlying storage write and leaves the cell unchanged;
two successive set(v) calls with the same v perform exactly one underlying
storage write when the tier writes through (RTC or implicit NVRAM) and v
differs from the previously cached value, and zero underlying writes
otherwise. -/
theorem set_idempotent_single_write {α : Type} [DecidableEq α]
    (c : PersistentValue α) (v : α) :
    c.set c.value = (c, 0) ∧
    (c.set v).2 + (((c.set v).1).set v).2 =
      (if v ≠ c.value ∧ (c.storageType = StorageType.rtc ∨
        c.storageType = StorageType.nvramImplicit) then 1 else 0) := by
  constructor
  · simp [PersistentValue.set]
  · by_cases hv : v = c.value
    · simp [PersistentValue.set, hv]
    · rcases c with ⟨tier, w⟩
      simp only at hv
      cases tier <;>
        simp [PersistentValue.set, hv]

/-- Claim C9, counterexample.  The claim states that on the degraded tier a
cell still returns its construction-time default after any sequence of set
calls.  Starting from cached default 0 on tier none, set(5) updates the
in-memory cache: get() returns 5, not 0. -/
theorem degraded_tier_cache_updated_counterexample :
    (((PersistentValue.mk StorageType.none (0 : Int)).set 5).1).get = 5 ∧
    (((PersistentValue.mk StorageType.none (0 : Int)).set 5).1).get ≠ 0 := by
  decide

/-- Claim C9 (amended): with no RTC pointer and no key the constructor
degrades the tier to none; on that tier set(v) performs no underlying
storage write and keeps the tier, but it still updates the in-memory cache,
so get() returns the value just set rather than the construction-time
default. -/
theorem degraded_tier_drops_storage_writes {α : Type} [DecidableEq α]
    (c : PersistentValue α) (v : α) (hasSection : Bool)
    (h : c.storageType = StorageType.none) :
    selectStorageType false hasSection false = StorageType.none ∧
    (c.set v).2 = 0 ∧
    ((c.set v).1).get = v ∧
    ((c.set v).1).storageType = StorageType.none := by
  refine ⟨by cases hasSection <;> rfl, ?_, ?_, ?_⟩ <;>
    · rcases c with ⟨tier, w⟩
      simp only at h
      subst h
      by_cases hv : v = w <;>
        simp [PersistentValue.set, PersistentValue.get, hv]

/-- Witness for the amended claim C9 at a concrete degraded cell. -/
theorem degraded_tier_drops_storage_writes_witness :
    selectStorageType false true false = StorageType.none ∧
    ((PersistentValue.mk StorageType.none (0 : Int)).set 5).2 = 0 ∧
    (((PersistentValue.mk StorageType.none (0 : Int)).set 5).1).get = 5 ∧
    (((PersistentValue.mk StorageType.none (0 : Int)).set 5).1).storageType =
      StorageType.none :=
  degraded_tier_drops_storage_writes
    (PersistentValue.mk StorageType.none (0 : Int)) 5 true rfl

/-- Claim C10: when WiFi is not connected, getDeviceId derives nothing from
the MAC address (the result and state do not depend on it), leaves the cached
device id unchanged and returns it; a boot where no id was ever determined
has the constructor value, the empty string. -/
theorem device_id_offline (mac : List Nat) (cached : String) :
    (getDeviceId ⟨false, mac, cached⟩).1 = cached ∧
    (getDeviceId ⟨false, mac, cached⟩).2 = ⟨false, mac, cached⟩ ∧
    iotConstructorDeviceId = "" := by
  exact ⟨rfl, rfl, rfl⟩

/-! ## Helper lemmas about the reconciliation loops -/

/-- Any write appended by one field-loop iteration targets the NVRAM key of
some registered cell. -/
theorem processField_writes_mem (cfgMap : List (String × ConfigCell))
    (acc : Prefs × List WriteEvent) (k : String) (v : JVal) (e : WriteEvent)
    (he : e ∈ (processField cfgMap acc (k, v)).2) :
    e ∈ acc.2 ∨ ∃ k0 cell, cfgMap.lookup k0 = some cell ∧ e.key = cell.nvramKey := by
  unfold processField at he
  split at he
  · exact Or.inl he
  · rename_i cell hlk
    split at he
    all_goals
      first
      | exact Or.inl he
      | (split at he
         · simp only [List.mem_append, List.mem_singleton] at he
           rcases he with h | h
           · exact Or.inl h
           · exact Or.inr ⟨k, cell, hlk, by rw [h]⟩
         · exact Or.inl he)

/-- Any write present after running the field loop over a document either was
in the starting log or targets the NVRAM key of some registered cell. -/
theorem docFold_writes_mem (cfgMap : List (String × ConfigCell))
    (doc : List (String × JVal)) (acc : Prefs × List WriteEvent) (e : WriteEvent)
    (he : e ∈ (doc.foldl (processField cfgMap) acc).2) :
    e ∈ acc.2 ∨ ∃ k0 cell, cfgMap.lookup k0 = some cell ∧ e.key = cell.nvramKey := by
  induction doc generalizing acc with
  | nil => exact Or.inl he
  | cons kv t ih =>
    rcases ih (processField cfgMap acc kv) he with h | h
    · exact processField_writes_mem cfgMap acc kv.1 kv.2 e h
    · exact Or.inr h

/-- Any write present after running the header loop either was in the
starting log or targets the etag key or the date key. -/
theorem headerFold_writes_mem (etagKey dateKey : String)
    (hs : List (String × String)) (acc : Prefs × List WriteEvent) (e : WriteEvent)
    (he : e ∈ (hs.foldl (processHeaderField etagKey dateKey) acc).2) :
    e ∈ acc.2 ∨ e.key = etagKey ∨ e.key = dateKey := by
  induction hs generalizing acc with
  | nil => exact Or.inl he
  | cons kv t ih =>
    rcases ih (processHeaderField etagKey dateKey acc kv) he with h | h
    · unfold processHeaderField at h
      split at h
      · simp only [List.mem_append, List.mem_singleton] at h
        rcases h with h | h
        · exact Or.inl h
        · exact Or.inr (Or.inl (by rw [h]))
      · split at h
        · simp only [List.mem_append, List.mem_singleton] at h
          rcases h with h | h
          · exact Or.inl h
          · exact Or.inr (Or.inr (by rw [h]))
        · exact Or.inl h
    · exact Or.inr h

/-- The header loop never removes writes from the log. -/
theorem headerFold_writes_mono (etagKey dateKey : String)
    (hs : List (String × String)) (acc : Prefs × List WriteEvent) (e : WriteEvent)
    (he : e ∈ acc.2) :
    e ∈ (hs.foldl (processHeaderField etagKey dateKey) acc).2 := by
  induction hs generalizing acc with
  | nil => exact he
  | cons kv t ih =>
    refine ih (processHeaderField etagKey dateKey acc kv) ?_
    unfold processHeaderField
    split
    · simp only [List.mem_append]
      exact Or.inl he
    · split
      · simp only [List.mem_append]
        exact Or.inl he
      · exact he

/-- A response header named etag (case-insensitively) is persisted under the
etag key by the header loop. -/
theorem headerFold_writes_etag (etagKey dateKey : String)
    (hs : List (String × String)) (acc : Prefs × List WriteEvent)
    (n v : String) (hmem : (n, v) ∈ hs) (hn : eqIgnoreCase n "etag" = true) :
    WriteEvent.mk etagKey (JVal.jStr v) ∈
      (hs.foldl (processHeaderField etagKey dateKey) acc).2 := by
  induction hs generalizing acc with
  | nil => cases hmem
  | cons kv t ih =>
    rcases List.mem_cons.mp hmem with h | h
    · subst h
      refine headerFold_writes_mono etagKey dateKey t _ _ ?_
      unfold processHeaderField
      rw [hn]
      simp
    · exact ih (processHeaderField etagKey dateKey acc kv) h

/-- A response header named last-modified (case-insensitively, and not also
matching etag) is persisted under the date key by the header loop. -/
theorem headerFold_writes_date (etagKey dateKey : String)
    (hs : List (String × String)) (acc : Prefs × List WriteEvent)
    (n v : String) (hmem : (n, v) ∈ hs) (hn1 : eqIgnoreCase n "etag" = false)
    (hn2 : eqIgnoreCase n "last-modified" = true) :
    WriteEvent.mk dateKey (JVal.jStr v) ∈
      (hs.foldl (processHeaderField etagKey dateKey) acc).2 := by
  induction hs generalizing acc with
  | nil => cases hmem
  | cons kv t ih =>
    rcases List.mem_cons.mp hmem with h | h
    · subst h
      refine headerFold_writes_mono etagKey dateKey t _ _ ?_
      unfold processHeaderField
      rw [hn1, hn2]
      simp
    · exact ih (processHeaderField etagKey dateKey acc kv) h

/-- After the publish pass, a cell whose NVRAM key stores a value of its own
declared type holds exactly that stored value in memory. -/
theorem cellReadFromNvram_reflects (p : Prefs) (c : ConfigCell) (v : JVal)
    (hl : p.lookup (cellReadFromNvram p c).nvramKey = some v)
    (ht : typeMatches v (cellReadFromNvram p c).ctype = true) :
    (cellReadFromNvram p c).value = v := by
  obtain ⟨nk, ct, cv⟩ := c
  cases ct <;> cases v <;>
    simp_all [cellReadFromNvram, typeMatches, prefsGetInt, prefsGetBool, prefsGetStr]

/-- A successful association-list lookup comes from an entry of the list. -/
theorem lookup_eq_some_mem {β : Type} (l : List (String × β)) (k : String)
    (b : β) (h : l.lookup k = some b) : ∃ a, (a, b) ∈ l := by
  induction l with
  | nil => cases h
  | cons kv t ih =>
    rw [List.lookup] at h
    split at h
    · injection h with h2
      subst h2
      exact ⟨kv.1, by simp⟩
    · obtain ⟨a, ha⟩ := ih h
      exact ⟨a, List.mem_cons_of_mem _ ha⟩

/-! ## Theorems for claims C5, C6, C7 -/

/-- Claim C5: updateConfig returns false and leaves the whole configuration
state (persisted values, freshness token, in-memory cells) unchanged, and
performs no preferences write, whenever the fetch reports a non-2xx status
(including 304 not-modified) or the document fails JSON deserialization. -/
theorem update_config_failure_paths (st : ConfigState) (etagKey dateKey : String)
    (initialized : Bool) (status : Int)
    (parsed : Option (List (String × JVal))) (headers : List (String × String))
    (h : status < 200 ∨ status ≥ 300 ∨ parsed = none) :
    updateConfig st etagKey dateKey initialized status parsed headers =
      ⟨false, st, []⟩ := by
  unfold updateConfig
  by_cases h1 : initialized
  · by_cases h2 : status < 200 ∨ status ≥ 300
    · simp [h1, h2]
    · rcases h with hs | hs | hp
      · exact absurd (Or.inl hs) h2
      · exact absurd (Or.inr hs) h2
      · subst hp
        simp [h1, h2]
  · simp [h1]

/-- Witness for claim C5 at a 304 not-modified response. -/
theorem update_config_failure_paths_witness :
    updateConfig ⟨[], []⟩ "cfgEtag" "cfgDate" true 304 none [] =
      ⟨false, ⟨[], []⟩, []⟩ :=
  update_config_failure_paths ⟨[], []⟩ "cfgEtag" "cfgDate" true 304 none []
    (Or.inr (Or.inl (by decide)))

/-- Claim C6: in the reconciliation loop, a field whose name matches no
registered cell is skipped without being stored; a field whose wire type
differs from the registered cell's declared type is skipped; and in the spec
scenarios, a document with fields a=1, b="x", unknown=5 against an int32 cell
a and a string cell b stores both registered fields and nothing under the
unknown key, while a document with a="notanint", b="x" leaves the persisted
a unchanged and still applies b. -/
theorem reconcile_field_skip_semantics :
    (∀ (cfgMap : List (String × ConfigCell)) (acc : Prefs × List WriteEvent)
      (k : String) (v : JVal), cfgMap.lookup k = none →
      processField cfgMap acc (k, v) = acc) ∧
    (∀ (cfgMap : List (String × ConfigCell)) (acc : Prefs × List WriteEvent)
      (k : String) (v : JVal) (cell : ConfigCell),
      cfgMap.lookup k = some cell → typeMatches v cell.ctype = false →
      processField cfgMap acc (k, v) = acc) ∧
    (processDoc demoMap []
      [("a", JVal.jInt 1), ("b", JVal.jStr "x"), ("unknown", JVal.jInt 5)]).1.lookup "a"
      = some (JVal.jInt 1) ∧
    (processDoc demoMap []
      [("a", JVal.jInt 1), ("b", JVal.jStr "x"), ("unknown", JVal.jInt 5)]).1.lookup "b"
      = some (JVal.jStr "x") ∧
    (processDoc demoMap []
      [("a", JVal.jInt 1), ("b", JVal.jStr "x"), ("unknown", JVal.jInt 5)]).1.lookup "unknown"
      = none ∧
    (processDoc demoMap [("a", JVal.jInt 1)]
      [("a", JVal.jStr "notanint"), ("b", JVal.jStr "x")]).1.lookup "a"
      = some (JVal.jInt 1) ∧
    (processDoc demoMap [("a", JVal.jInt 1)]
      [("a", JVal.jStr "notanint"), ("b", JVal.jStr "x")]).1.lookup "b"
      = some (JVal.jStr "x") := by
  refine ⟨?_, ?_, by decide, by decide, by decide, by decide, by decide⟩
  · intro cfgMap acc k v hlk
    simp [processField, hlk]
  · intro cfgMap acc k v cell hlk hmm
    obtain ⟨nk, ct, cv⟩ := cell
    cases v <;> cases ct <;> simp_all [processField, typeMatches]

/-- Witness for claim C6: a field with an unregistered key and a field with a
mismatched wire type are both skipped at concrete inputs. -/
theorem reconcile_field_skip_semantics_witness :
    processField [] ([], []) ("k", JVal.jInt 3) = ([], []) ∧
    processField demoMap ([], []) ("a", JVal.jStr "notanint") = ([], []) :=
  ⟨reconcile_field_skip_semantics.1 [] ([], []) "k" (JVal.jInt 3) rfl,
   reconcile_field_skip_semantics.2.1 demoMap ([], []) "a" (JVal.jStr "notanint")
     demoCellA (by decide) (by decide)⟩

/-- Claim C7: on a successful pass (2xx status, document parsed, no
registered cell persisting under the token keys), updateConfig returns true,
its write sequence splits into the field writes followed by the token writes
so that the freshness-token keys are written only after every document field
has been processed and nothing is written after them; every etag and
last-modified response header is indeed persisted; and afterwards every
registered cell whose NVRAM key stores a value of its declared type holds
exactly that persisted value in memory, so get() reflects the reconciled
state. -/
theorem token_update_last_write_and_publish (st : ConfigState)
    (etagKey dateKey : String) (status : Int) (doc : List (String × JVal))
    (headers : List (String × String)) (r : UpdateResult)
    (hr : r = updateConfig st etagKey dateKey true status (some doc) headers)
    (hstat : 200 ≤ status ∧ status < 300)
    (hdisj : ∀ kc ∈ st.cfgMap,
      (kc : String × ConfigCell).2.nvramKey ≠ etagKey ∧ kc.2.nvramKey ≠ dateKey) :
    r.ok = true ∧
    (∃ w1 w2, r.writes = w1 ++ w2 ∧
      (∀ e ∈ w1, (e : WriteEvent).key ≠ etagKey ∧ e.key ≠ dateKey) ∧
      (∀ e ∈ w2, (e : WriteEvent).key = etagKey ∨ e.key = dateKey)) ∧
    (∀ n v, (n, v) ∈ headers → eqIgnoreCase n "etag" = true →
      WriteEvent.mk etagKey (JVal.jStr v) ∈ r.writes) ∧
    (∀ n v, (n, v) ∈ headers → eqIgnoreCase n "etag" = false →
      eqIgnoreCase n "last-modified" = true →
      WriteEvent.mk dateKey (JVal.jStr v) ∈ r.writes) ∧
    (∀ kc ∈ r.state.cfgMap, ∀ v,
      r.state.prefs.lookup (kc : String × ConfigCell).2.nvramKey = some v →
      typeMatches v kc.2.ctype = true → kc.2.value = v) := by
  have hst : ¬ (status < 200 ∨ status ≥ 300) := by omega
  rw [updateConfig, if_neg (by simp), if_neg hst] at hr
  subst hr
  refine ⟨rfl, ?_, ?_, ?_, ?_⟩
  · refine ⟨(processDoc st.cfgMap st.prefs doc).2,
      (processHeaders etagKey dateKey (processDoc st.cfgMap st.prefs doc).1 headers).2,
      rfl, ?_, ?_⟩
    · intro e he
      rcases docFold_writes_mem st.cfgMap doc (st.prefs, []) e he with h | h
      · cases h
      · obtain ⟨k0, cell, hlk, hkey⟩ := h
        obtain ⟨a, ha⟩ := lookup_eq_some_mem st.cfgMap k0 cell hlk
        rw [hkey]
        exact hdisj (a, cell) ha
    · intro e he
      rcases headerFold_writes_mem etagKey dateKey headers
          ((processDoc st.cfgMap st.prefs doc).1, []) e he with h | h
      · cases h
      · exact h
  · intro n v hmem hn
    exact List.mem_append.mpr (Or.inr
      (headerFold_writes_etag etagKey dateKey headers
        ((processDoc st.cfgMap st.prefs doc).1, []) n v hmem hn))
  · intro n v hmem hn1 hn2
    exact List.mem_append.mpr (Or.inr
      (headerFold_writes_date etagKey dateKey headers
        ((processDoc st.cfgMap st.prefs doc).1, []) n v hmem hn1 hn2))
  · intro kc hkc v hl ht
    obtain ⟨a, _, rfl⟩ := List.mem_map.mp hkc
    exact cellReadFromNvram_reflects _ a.2 v hl ht

/-- Witness for claim C7 at the spec scenario: one registered int32 cell, a
200 response with document a=7 and a new etag v2. -/
theorem token_update_last_write_and_publish_witness :
    (updateConfig ⟨[("a", demoCellA)], []⟩ "cfgEtag" "cfgDate" true 200
        (some [("a", JVal.jInt 7)]) [("ETag", "v2")]).ok = true ∧
    (∃ w1 w2,
      (updateConfig ⟨[("a", demoCellA)], []⟩ "cfgEtag" "cfgDate" true 200
        (some [("a", JVal.jInt 7)]) [("ETag", "v2")]).writes = w1 ++ w2 ∧
      (∀ e ∈ w1, (e : WriteEvent).key ≠ "cfgEtag" ∧ e.key ≠ "cfgDate") ∧
      (∀ e ∈ w2, (e : WriteEvent).key = "cfgEtag" ∨ e.key = "cfgDate")) ∧
    (∀ n v, (n, v) ∈ [("ETag", "v2")] → eqIgnoreCase n "etag" = true →
      WriteEvent.mk "cfgEtag" (JVal.jStr v) ∈
        (updateConfig ⟨[("a", demoCellA)], []⟩ "cfgEtag" "cfgDate" true 200
          (some [("a", JVal.jInt 7)]) [("ETag", "v2")]).writes) ∧
    (∀ n v, (n, v) ∈ [("ETag", "v2")] → eqIgnoreCase n "etag" = false →
      eqIgnoreCase n "last-modified" = true →
      WriteEvent.mk "cfgDate" (JVal.jStr v) ∈
        (updateConfig ⟨[("a", demoCellA)], []⟩ "cfgEtag" "cfgDate" true 200
          (some [("a", JVal.jInt 7)]) [("ETag", "v2")]).writes) ∧
    (∀ kc ∈ (updateConfig ⟨[("a", demoCellA)], []⟩ "cfgEtag" "cfgDate" true 200
        (some [("a", JVal.jInt 7)]) [("ETag", "v2")]).state.cfgMap, ∀ v,
      (updateConfig ⟨[("a", demoCellA)], []⟩ "cfgEtag" "cfgDate" true 200
        (some [("a", JVal.jInt 7)]) [("ETag", "v2")]).state.prefs.lookup
          (kc : String × ConfigCell).2.nvramKey = some v →
      typeMatches v kc.2.ctype = true → kc.2.value = v) :=
  token_update_last_write_and_publish ⟨[("a", demoCellA)], []⟩
    "cfgEtag" "cfgDate" 200 [("a", JVal.jInt 7)] [("ETag", "v2")] _ rfl
    (by decide) (by decide)

end Arduino4Iot
